import Mathlib

/-!
Verification of the repository fragment consisting of
`common/lib/xmodule/xmodule/modulestore/tests/django_utils.py` and
`lms/djangoapps/edxnotes/decorators.py`.

The Python code is shallowly embedded: configuration dictionaries become a
JSON-like `Value` type, methods with side effects become functions producing
explicit event traces, and attribute lookup with a `getattr` default becomes
`Option.getD`.
-/

/-- A JSON-like value mirroring the Python dictionaries, lists, strings,
numbers, booleans and `None` that the configuration-assembly functions build.
Dictionary entries keep the order of the Python dict literals. -/
inductive Value where
  | str : String → Value
  | nat : Nat → Value
  | bool : Bool → Value
  | none : Value
  | dict : List (String × Value) → Value
  | list : List Value → Value

/-- Python dictionary subscript `d[k]`: first binding of `k` in the entry
list, with `Value.none` standing in for the (never-hit) `KeyError` case. -/
def dictGet (v : Value) (k : String) : Value :=
  match v with
  | Value.dict kvs => (kvs.lookup k).getD Value.none
  | _ => Value.none

/-- Module-level constant imported from
`xmodule.modulestore.tests.mongo_connection`, which is outside the reviewed
sources.  Its concrete value is irrelevant to every claim. -/
def MONGO_HOST : Value := Value.str "localhost"

/-- Module-level constant imported from
`xmodule.modulestore.tests.mongo_connection`, outside the reviewed sources;
its concrete value is irrelevant to every claim. -/
def MONGO_PORT_NUM : Value := Value.nat 27017

/-- `draft_mongo_store_config(data_dir)` from `django_utils.py`.
The call `uuid4().hex[:5]` draws fresh randomness on every invocation; the
draw is made explicit as the extra argument `uuid_hex`, of which the code
uses the first five characters. -/
def draft_mongo_store_config (data_dir : String) (uuid_hex : String) : Value :=
  let modulestore_options := Value.dict [
    ("default_class", Value.str "xmodule.raw_module.RawDescriptor"),
    ("fs_root", Value.str data_dir),
    ("render_template", Value.str "edxmako.shortcuts.render_to_string")
  ]
  Value.dict [
    ("default", Value.dict [
      ("NAME", Value.str "draft"),
      ("ENGINE", Value.str "xmodule.modulestore.mongo.draft.DraftModuleStore"),
      ("DOC_STORE_CONFIG", Value.dict [
        ("host", MONGO_HOST),
        ("port", MONGO_PORT_NUM),
        ("db", Value.str "test_xmodule"),
        ("collection", Value.str ("modulestore" ++ uuid_hex.take 5))
      ]),
      ("OPTIONS", modulestore_options)
    ])
  ]

/-- `split_mongo_store_config(data_dir)` from `django_utils.py`, with the
fresh `uuid4().hex[:5]` draw explicit as `uuid_hex`. -/
def split_mongo_store_config (data_dir : String) (uuid_hex : String) : Value :=
  let modulestore_options := Value.dict [
    ("default_class", Value.str "xmodule.raw_module.RawDescriptor"),
    ("fs_root", Value.str data_dir),
    ("render_template", Value.str "edxmako.shortcuts.render_to_string")
  ]
  Value.dict [
    ("default", Value.dict [
      ("NAME", Value.str "draft"),
      ("ENGINE", Value.str "xmodule.modulestore.split_mongo.split_draft.DraftVersioningModuleStore"),
      ("DOC_STORE_CONFIG", Value.dict [
        ("host", MONGO_HOST),
        ("port", MONGO_PORT_NUM),
        ("db", Value.str "test_xmodule"),
        ("collection", Value.str ("modulestore" ++ uuid_hex.take 5))
      ]),
      ("OPTIONS", modulestore_options)
    ])
  ]

/-- `xml_store_config(data_dir, course_dirs=None)` from `django_utils.py`;
the keyword argument defaults to `None`, which callers here leave in place,
so it is passed explicitly as `Value.none`. -/
def xml_store_config (data_dir : String) (course_dirs : Value) : Value :=
  Value.dict [
    ("default", Value.dict [
      ("NAME", Value.str "xml"),
      ("ENGINE", Value.str "xmodule.modulestore.xml.XMLModuleStore"),
      ("OPTIONS", Value.dict [
        ("data_dir", Value.str data_dir),
        ("default_class", Value.str "xmodule.hidden_module.HiddenDescriptor"),
        ("course_dirs", course_dirs)
      ])
    ])
  ]

/-- `mixed_store_config(data_dir, mappings, include_xml=True)` from
`django_utils.py`.  Its two inner calls of `draft_mongo_store_config` and
`split_mongo_store_config` each draw fresh randomness, made explicit as
`uuid1` and `uuid2`. -/
def mixed_store_config (data_dir : String) (mappings : Value)
    (include_xml : Bool) (uuid1 uuid2 : String) : Value :=
  let stores :=
    [dictGet (draft_mongo_store_config data_dir uuid1) "default",
     dictGet (split_mongo_store_config data_dir uuid2) "default"]
  let stores := if include_xml
    then stores ++ [dictGet (xml_store_config data_dir Value.none) "default"]
    else stores
  Value.dict [
    ("default", Value.dict [
      ("ENGINE", Value.str "xmodule.modulestore.mixed.MixedModuleStore"),
      ("OPTIONS", Value.dict [
        ("mappings", mappings),
        ("stores", Value.list stores)
      ])
    ])
  ]

/-- The `collection` entry of a store profile's `DOC_STORE_CONFIG`, as a
string (empty when absent); used to compare the random part of two
configurations. -/
def profileCollection (profile : Value) : String :=
  match dictGet (dictGet profile "DOC_STORE_CONFIG") "collection" with
  | Value.str s => s
  | _ => ""

/-- The `collection` entry of the `default` profile of a draft- or
split-mongo configuration. -/
def configCollection (cfg : Value) : String :=
  profileCollection (dictGet cfg "default")

/-- Replace the random `collection` entry of a `DOC_STORE_CONFIG` dictionary
by a fixed placeholder. -/
def scrubDoc (doc : Value) : Value :=
  match doc with
  | Value.dict kvs =>
      Value.dict (kvs.map (fun kv =>
        if kv.1 = "collection" then (kv.1, Value.str "") else kv))
  | v => v

/-- Replace the random `collection` entry of a store profile's
`DOC_STORE_CONFIG` by a fixed placeholder. -/
def scrubProfile (profile : Value) : Value :=
  match profile with
  | Value.dict kvs =>
      Value.dict (kvs.map (fun kv =>
        if kv.1 = "DOC_STORE_CONFIG" then (kv.1, scrubDoc kv.2) else kv))
  | v => v

/-- Scrub every profile of a draft- or split-mongo configuration. -/
def scrubConfig (cfg : Value) : Value :=
  match cfg with
  | Value.dict kvs => Value.dict (kvs.map (fun kv => (kv.1, scrubProfile kv.2)))
  | v => v

/-- Scrub the store profiles inside a mixed configuration's
`OPTIONS.stores` list. -/
def scrubMixedProfile (profile : Value) : Value :=
  match profile with
  | Value.dict kvs =>
      Value.dict (kvs.map (fun kv =>
        if kv.1 = "OPTIONS" then
          (kv.1,
            match kv.2 with
            | Value.dict opts =>
                Value.dict (opts.map (fun okv =>
                  if okv.1 = "stores" then
                    (okv.1,
                      match okv.2 with
                      | Value.list ss => Value.list (ss.map scrubProfile)
                      | v => v)
                  else okv))
            | v => v)
        else kv))
  | v => v

/-- Scrub every random collection name inside a mixed configuration. -/
def scrubMixed (cfg : Value) : Value :=
  match cfg with
  | Value.dict kvs =>
      Value.dict (kvs.map (fun kv => (kv.1, scrubMixedProfile kv.2)))
  | v => v

/-- The `NAME` entry of a store profile, as a string. -/
def profileName (profile : Value) : String :=
  match dictGet profile "NAME" with
  | Value.str s => s
  | _ => ""

/-- The `NAME` values of the constituent store profiles in the `stores` list
of a mixed configuration, in order. -/
def storeNames (cfg : Value) : List String :=
  match dictGet (dictGet (dictGet cfg "default") "OPTIONS") "stores" with
  | Value.list ss => ss.map profileName
  | _ => []


/-!
### The `edxnotes` decorator (`lms/djangoapps/edxnotes/decorators.py`)

A component's runtime objects are flattened into the attributes the wrapper
actually reads.  `getattr(self.system, 'is_author_mode', False)` is embedded
as an `Option Bool` field read with `Option.getD false`: `Option.none`
models the attribute being absent. -/

/-- The `self.system` object: only `is_author_mode` is read, through
`getattr` with default `False`, so the attribute may be absent. -/
structure System where
  is_author_mode : Option Bool

/-- The course object returned by
`self.descriptor.runtime.modulestore.get_course(...)`: the wrapper reads its
`id` and its `edxnotes_visibility` field. -/
structure Course where
  id : String
  edxnotes_visibility : Bool

/-- The component (`self`) as the wrapper sees it: its `system`, its
`scope_ids.usage_id`, its `runtime.course_id` and its
`runtime.anonymous_student_id`. -/
structure Component where
  system : System
  usage_id : String
  course_id : String
  anonymous_student_id : String

/-- The `params` sub-dictionary passed to the template. -/
structure NotesParams where
  usageId : String
  courseId : String
  token : String
  endpoint : String
  debug : Bool

/-- The context dictionary passed to
`render_to_string('edxnotes_wrapper.html', ...)`. -/
structure NotesCtx where
  content : String
  uid : String
  edxnotes_visibility_url : String
  edxnotes_visibility : String
  params : NotesParams

/-- The collaborators imported by `decorators.py` from outside the reviewed
sources (`edxnotes.helpers`, `edxmako.shortcuts`, Django's `reverse`,
`settings`, `json`), left abstract: the decorator only composes them. -/
structure Env where
  is_feature_enabled : Course → Bool
  get_course : String → Course
  render_to_string : String → NotesCtx → String
  generate_uid : String
  reverse_edxnotes_visibility : String → String
  json_dumps : Bool → String
  get_real_user : String → String
  get_token : String → String
  get_endpoint : String
  debug : Bool

/-- One recorded invocation of the original `get_html`: the `self`, the
positional arguments and the keyword arguments it received. -/
structure CallRec (Args Kwargs : Type) where
  self : Component
  args : Args
  kwargs : Kwargs

/-- A call of the original `get_html`, instrumented: it returns the
original's result together with the record of the one invocation made. -/
def callOriginal {Args Kwargs : Type}
    (original_get_html : Component → Args → Kwargs → String)
    (self : Component) (args : Args) (kwargs : Kwargs) :
    String × List (CallRec Args Kwargs) :=
  (original_get_html self args kwargs, [⟨self, args, kwargs⟩])

/-- The wrapper `get_html(self, *args, **kwargs)` defined inside the
`edxnotes` decorator, instrumented with the list of invocations of the
original `get_html` (second component). -/
def edxnotes.get_html {Args Kwargs : Type} (env : Env)
    (original_get_html : Component → Args → Kwargs → String)
    (self : Component) (args : Args) (kwargs : Kwargs) :
    String × List (CallRec Args Kwargs) :=
  let is_studio := (self.system.is_author_mode).getD false
  let course := env.get_course self.course_id
  if is_studio || !env.is_feature_enabled course then
    callOriginal original_get_html self args kwargs
  else
    let inner := callOriginal original_get_html self args kwargs
    (env.render_to_string "edxnotes_wrapper.html"
      { content := inner.1
        uid := env.generate_uid
        edxnotes_visibility_url := env.reverse_edxnotes_visibility course.id
        edxnotes_visibility := env.json_dumps course.edxnotes_visibility
        params :=
          { usageId := self.usage_id
            courseId := self.course_id
            token := env.get_token (env.get_real_user self.anonymous_student_id)
            endpoint := env.get_endpoint
            debug := env.debug } },
     inner.2)

/-- A decorated component class: its `get_html` method, and its remaining
attributes as an association list. -/
structure Cls (Args Kwargs : Type) where
  get_html : Component → Args → Kwargs → String
  attrs : List (String × String)

/-- The `edxnotes` class decorator: it saves `cls.get_html`, rebinds
`cls.get_html` to the wrapper, and returns the class. -/
def edxnotes {Args Kwargs : Type} (env : Env) (cls : Cls Args Kwargs) :
    Cls Args Kwargs :=
  let original_get_html := cls.get_html
  { cls with
      get_html := fun self args kwargs =>
        (edxnotes.get_html env original_get_html self args kwargs).1 }

/-!
### `ModuleStoreTestCase` lifecycle hooks (`django_utils.py`)

The hooks only issue calls against the modulestore, the content-store cache,
the request cache and the superclass; they are embedded as functions from a
description of the active modulestore to the sequence of those calls. -/

/-- One constituent store of the active mixed modulestore, as the teardown
code probes it: `hasattr(store, 'database')` (with the database name),
`hasattr(store, 'fs_root')` (with the path), and whether that path is an
existing directory (`os.path.isdir`). -/
structure StoreBackend where
  database : Option String
  fs_root : Option String
  fs_root_isdir : Bool

/-- The active modulestore as returned by `modulestore()`: whether it is an
`XMLModuleStore` instance, its constituent `modulestores`, and whether it has
a `close_connections` attribute. -/
structure ModuleStoreState where
  isXml : Bool
  modulestores : List StoreBackend
  has_close_connections : Bool

/-- Calls issued by the `ModuleStoreTestCase` lifecycle hooks, in program
order. -/
inductive LcEv where
  | drop_database (name : String)
  | disconnect (name : String)
  | clear_contentstore
  | close_connections
  | super_pre_setup
  | clear_existing_modulestores
  | clear_request_cache
  | rmtree (dir : String)
  | super_post_teardown
deriving DecidableEq, Repr

/-- The body of the `for store in module_store.modulestores` loop of
`drop_mongo_collections`: when the store has a `database`, drop it and
disconnect its connection. -/
def dropLoopBody (s : StoreBackend) : List LcEv :=
  match s.database with
  | some name => [LcEv.drop_database name, LcEv.disconnect name]
  | none => []

/-- `ModuleStoreTestCase.drop_mongo_collections` as the sequence of calls it
issues against the modulestore described by `ms`. -/
def drop_mongo_collections (ms : ModuleStoreState) : List LcEv :=
  (if ms.isXml then [] else ms.modulestores.flatMap dropLoopBody)
  ++ [LcEv.clear_contentstore]
  ++ (if ms.has_close_connections then [LcEv.close_connections] else [])

/-- `ModuleStoreTestCase._pre_setup` as a call sequence. -/
def _pre_setup (ms : ModuleStoreState) : List LcEv :=
  drop_mongo_collections ms ++ [LcEv.super_pre_setup]

/-- The body of the `for store in module_store.modulestores` loop of
`_post_teardown`: disconnect stores with a `database`, and remove the
temporary `fs_root` directory when it lies under `/tmp/` and exists. -/
def teardownLoopBody (s : StoreBackend) : List LcEv :=
  (match s.database with
   | some name => [LcEv.disconnect name]
   | none => [])
  ++ (match s.fs_root with
      | some r => if r.startsWith "/tmp/" && s.fs_root_isdir then [LcEv.rmtree r] else []
      | none => [])

/-- `ModuleStoreTestCase._post_teardown` as a call sequence. -/
def _post_teardown (ms : ModuleStoreState) : List LcEv :=
  drop_mongo_collections ms
  ++ [LcEv.clear_existing_modulestores, LcEv.clear_request_cache]
  ++ (if ms.isXml then [] else ms.modulestores.flatMap teardownLoopBody)
  ++ [LcEv.super_post_teardown]

/-!
### `ModuleStoreTestCase.create_sample_course` (`django_utils.py`)

A block-info tree as produced by `sample_courses.BlockInfo`: a record with a
category, a block identifier, field values and a list of child records.  The
method is embedded as the sequence of store calls it issues; a created
block's location is identified by its `block_id`. -/

/-- A `BlockInfo` record: `(block_id, category, fields, sub_tree)`. -/
inductive BlockInfo where
  | mk (category : String) (block_id : String)
      (fields : List (String × String)) (sub_tree : List BlockInfo)

/-- Category of a block record. -/
def BlockInfo.category : BlockInfo → String
  | .mk c _ _ _ => c

/-- Identifier of a block record. -/
def BlockInfo.block_id : BlockInfo → String
  | .mk _ i _ _ => i

/-- Field values of a block record. -/
def BlockInfo.fields : BlockInfo → List (String × String)
  | .mk _ _ f _ => f

/-- Child records of a block record. -/
def BlockInfo.sub_tree : BlockInfo → List BlockInfo
  | .mk _ _ _ s => s

/-- Store calls issued by `create_sample_course`. -/
inductive CrEv where
  | create_course (org course run : String)
  | create_child (parent category block_id : String)
      (fields : List (String × String))
  | set_attr (block_id : String)
  | publish (course_loc : String)
deriving DecidableEq, Repr

mutual

/-- The inner `create_sub_tree(parent_loc, block_info)` of
`create_sample_course`: create the child on `parent_loc`, recurse into the
record's `sub_tree` with the new block's location as parent, then
`setattr(self, block_id, ...)`. -/
def create_sub_tree (parent_loc : String) : BlockInfo → List CrEv
  | .mk category block_id fields sub_tree =>
    CrEv.create_child parent_loc category block_id fields
      :: createForest block_id sub_tree
      ++ [CrEv.set_attr block_id]
termination_by b => sizeOf b

/-- `create_sub_tree` iterated over a list of sibling records, left to
right. -/
def createForest (parent_loc : String) : List BlockInfo → List CrEv
  | [] => []
  | b :: bs => create_sub_tree parent_loc b ++ createForest parent_loc bs
termination_by bs => sizeOf bs

end

/-- The course location created by `self.store.create_course(org, course,
run, ...)`, identified by its parts. -/
def courseLoc (org course run : String) : String :=
  org ++ "/" ++ course ++ "/" ++ run

/-- `create_sample_course(org, course, run, block_info_tree)` as the
sequence of store calls it issues.  (The `block_info_tree is None` default
substitutes `sample_courses.default_block_info_tree`, defined outside the
reviewed sources; the embedding takes the tree as given.) -/
def create_sample_course (org course run : String)
    (block_info_tree : List BlockInfo) : List CrEv :=
  CrEv.create_course org course run
    :: createForest (courseLoc org course run) block_info_tree
    ++ [CrEv.publish (courseLoc org course run)]

/-- Concrete course catalogue used by the witnesses: every course id yields
a course with the edxnotes feature visible. -/
def envW : Env where
  is_feature_enabled := fun c => c.edxnotes_visibility
  get_course := fun cid => { id := cid, edxnotes_visibility := true }
  render_to_string := fun tpl ctx => tpl ++ ":" ++ ctx.content ++ ":" ++ ctx.uid
  generate_uid := "uid0"
  reverse_edxnotes_visibility := fun cid => "/courses/" ++ cid ++ "/edxnotes/visibility"
  json_dumps := fun b => if b then "true" else "false"
  get_real_user := fun anon => "user-" ++ anon
  get_token := fun user => "token-" ++ user
  get_endpoint := "endpoint"
  debug := false

/-- Concrete component whose system lacks the `is_author_mode` attribute. -/
def componentW : Component where
  system := { is_author_mode := Option.none }
  usage_id := "usage-1"
  course_id := "course-1"
  anonymous_student_id := "anon-1"

/-- Concrete original `get_html` used by the witnesses. -/
def origW : Component → List String → List (String × String) → String :=
  fun self _ _ => "original-html-" ++ self.usage_id

/-- Concrete modulestore description used by the C10 witness: an
`XMLModuleStore` with one mongo-looking constituent and a
`close_connections` attribute. -/
def msW : ModuleStoreState where
  isXml := true
  modulestores :=
    [{ database := some "test_xmodule", fs_root := some "/tmp/data", fs_root_isdir := true }]
  has_close_connections := true

/-- The data carried by a `create_child` call: the parent location, the
record's category, its block identifier and its field values. -/
def createData : CrEv → Option (String × String × String × List (String × String))
  | CrEv.create_child parent category block_id fields =>
      some (parent, category, block_id, fields)
  | _ => none

/-- The `create_child` calls of a trace, with their data, in order. -/
def childCreates (tr : List CrEv) :
    List (String × String × String × List (String × String)) :=
  tr.filterMap createData

/-- The block identifiers of the `create_child` calls of a trace, in
order. -/
def createIds (tr : List CrEv) : List String :=
  (childCreates tr).map (fun r => r.2.2.1)

mutual

/-- Claim-side description of the blocks `create_sub_tree` must create: one
record per node of the tree, in preorder, carrying the parent under which
the node is created together with the node's category, identifier and field
values. -/
def specRecords (parent : String) :
    BlockInfo → List (String × String × String × List (String × String))
  | BlockInfo.mk category block_id fields sub_tree =>
      (parent, category, block_id, fields) :: specRecordsF block_id sub_tree
termination_by b => sizeOf b

/-- `specRecords` over a list of sibling records. -/
def specRecordsF (parent : String) :
    List BlockInfo → List (String × String × String × List (String × String))
  | [] => []
  | b :: bs => specRecords parent b ++ specRecordsF parent bs
termination_by bs => sizeOf bs

end

mutual

/-- All records of a block tree: the root and, recursively, every record of
its `sub_tree`. -/
def flattenT : BlockInfo → List BlockInfo
  | BlockInfo.mk category block_id fields sub_tree =>
      BlockInfo.mk category block_id fields sub_tree :: flattenF sub_tree
termination_by b => sizeOf b

/-- All records of a forest of block trees. -/
def flattenF : List BlockInfo → List BlockInfo
  | [] => []
  | b :: bs => flattenT b ++ flattenF bs
termination_by bs => sizeOf bs

end

/-- Concrete child record used by the C7 witness. -/
def blockWchild : BlockInfo := BlockInfo.mk "vertical" "vertical_y" [] []

/-- Concrete block record (with one child) used by the C7 witness. -/
def blockW : BlockInfo :=
  BlockInfo.mk "chapter" "chapter_x" [("display_name", "Overview")] [blockWchild]

/-!
## Claims
-/

/-- C3, counterexample: `draft_mongo_store_config` is not a pure function of
its argument.  Two calls with the same `data_dir` draw different
`uuid4().hex[:5]` values and then return different dictionaries: the
`collection` entries differ. -/
theorem draft_mongo_store_config_not_deterministic :
    ¬ (draft_mongo_store_config "data_dir" "0a1b2" =
       draft_mongo_store_config "data_dir" "3c4d5") := by
  intro h
  have h2 := congrArg configCollection h
  revert h2
  decide

/-- C3, amended: with the random `uuid4().hex[:5]` draws made explicit,
`draft_mongo_store_config`, `split_mongo_store_config` and
`mixed_store_config` are pure data transformations, and two calls with the
same arguments return configuration dictionaries that are equal after the
randomly drawn mongo `collection` names are replaced by a fixed
placeholder. -/
theorem config_assembly_deterministic_up_to_collections
    (data_dir : String) (mappings : Value) (include_xml : Bool)
    (u1 u2 u3 u4 : String) :
    scrubConfig (draft_mongo_store_config data_dir u1) =
      scrubConfig (draft_mongo_store_config data_dir u2) ∧
    scrubConfig (split_mongo_store_config data_dir u1) =
      scrubConfig (split_mongo_store_config data_dir u2) ∧
    scrubMixed (mixed_store_config data_dir mappings include_xml u1 u2) =
      scrubMixed (mixed_store_config data_dir mappings include_xml u3 u4) := by
  refine ⟨?_, ?_, ?_⟩ <;>
    cases include_xml <;>
      simp [scrubConfig, scrubMixed, scrubProfile, scrubDoc, scrubMixedProfile,
        draft_mongo_store_config, split_mongo_store_config, xml_store_config,
        mixed_store_config, dictGet]

/-- C4: `mixed_store_config` returns a dictionary with the single key
`default`, whose `ENGINE` is the mixed modulestore engine and whose
`OPTIONS` hold exactly the given `mappings` together with a `stores` list
made of the `default` entries of the draft-mongo and split-mongo
configurations, with the xml store configuration appended exactly when
`include_xml` is true. -/
theorem mixed_store_config_shape
    (data_dir : String) (mappings : Value) (include_xml : Bool)
    (u1 u2 : String) :
    mixed_store_config data_dir mappings include_xml u1 u2 =
      Value.dict [
        ("default", Value.dict [
          ("ENGINE", Value.str "xmodule.modulestore.mixed.MixedModuleStore"),
          ("OPTIONS", Value.dict [
            ("mappings", mappings),
            ("stores", Value.list (
              [dictGet (draft_mongo_store_config data_dir u1) "default",
               dictGet (split_mongo_store_config data_dir u2) "default"]
              ++ (if include_xml
                  then [dictGet (xml_store_config data_dir Value.none) "default"]
                  else [])))
          ])
        ])
      ] := by
  cases include_xml <;> rfl

/-- C5, counterexample: the backend `NAME` values in the `stores` list of a
`mixed_store_config` result are not pairwise distinct — the draft-mongo and
split-mongo profiles both carry the `NAME` `draft`. -/
theorem mixed_store_names_not_distinct :
    ¬ (storeNames
        (mixed_store_config "data_dir" (Value.dict []) true "0a1b2" "3c4d5")).Nodup := by
  decide

/-- C5, amended: in the `stores` list of a `mixed_store_config` result the
`NAME` values are, in order, `draft`, `draft`, `xml` when the xml store is
included and `draft`, `draft` otherwise: the two mongo-backed profiles share
the `NAME` `draft`, and only the xml store's `NAME` differs from them. -/
theorem mixed_store_names (data_dir : String) (mappings : Value)
    (u1 u2 : String) :
    storeNames (mixed_store_config data_dir mappings true u1 u2) =
      ["draft", "draft", "xml"] ∧
    storeNames (mixed_store_config data_dir mappings false u1 u2) =
      ["draft", "draft"] :=
  ⟨rfl, rfl⟩

/-- C1: the wrapped `get_html` is a two-way conditional — when the system is
in author mode or the edxnotes feature is not enabled for the component's
course it returns exactly the original `get_html` applied to the same
`self`, `args` and `kwargs`; otherwise it returns the rendering of
`edxnotes_wrapper.html` whose `content` context entry is the original
`get_html` output. -/
theorem edxnotes_get_html_two_way_conditional {Args Kwargs : Type}
    (env : Env) (original_get_html : Component → Args → Kwargs → String)
    (self : Component) (args : Args) (kwargs : Kwargs) :
    (edxnotes.get_html env original_get_html self args kwargs).1 =
      if (self.system.is_author_mode).getD false
          || !env.is_feature_enabled (env.get_course self.course_id) then
        original_get_html self args kwargs
      else
        env.render_to_string "edxnotes_wrapper.html"
          { content := original_get_html self args kwargs
            uid := env.generate_uid
            edxnotes_visibility_url :=
              env.reverse_edxnotes_visibility (env.get_course self.course_id).id
            edxnotes_visibility :=
              env.json_dumps (env.get_course self.course_id).edxnotes_visibility
            params :=
              { usageId := self.usage_id
                courseId := self.course_id
                token := env.get_token (env.get_real_user self.anonymous_student_id)
                endpoint := env.get_endpoint
                debug := env.debug } } := by
  simp only [edxnotes.get_html, callOriginal]
  cases hc : (self.system.is_author_mode.getD false
      || !env.is_feature_enabled (env.get_course self.course_id)) <;>
    simp [hc]

/-- C2: when the component's system has no `is_author_mode` attribute the
wrapped `get_html` does not fail — the `getattr` lookup falls back to
`False`, the call behaves as in the non-authoring case, and the outcome is
decided solely by whether the edxnotes feature is enabled for the course. -/
theorem edxnotes_get_html_missing_author_attr {Args Kwargs : Type}
    (env : Env) (original_get_html : Component → Args → Kwargs → String)
    (self : Component) (args : Args) (kwargs : Kwargs)
    (h : self.system.is_author_mode = Option.none) :
    (edxnotes.get_html env original_get_html self args kwargs).1 =
      if env.is_feature_enabled (env.get_course self.course_id) then
        env.render_to_string "edxnotes_wrapper.html"
          { content := original_get_html self args kwargs
            uid := env.generate_uid
            edxnotes_visibility_url :=
              env.reverse_edxnotes_visibility (env.get_course self.course_id).id
            edxnotes_visibility :=
              env.json_dumps (env.get_course self.course_id).edxnotes_visibility
            params :=
              { usageId := self.usage_id
                courseId := self.course_id
                token := env.get_token (env.get_real_user self.anonymous_student_id)
                endpoint := env.get_endpoint
                debug := env.debug } }
      else original_get_html self args kwargs := by
  simp only [edxnotes.get_html, callOriginal, h]
  cases hf : env.is_feature_enabled (env.get_course self.course_id) <;>
    simp [hf]

/-- Witness for C2 at a concrete component without the attribute. -/
theorem edxnotes_get_html_missing_author_attr_witness :
    (edxnotes.get_html envW origW componentW [] []).1 =
      if envW.is_feature_enabled (envW.get_course componentW.course_id) then
        envW.render_to_string "edxnotes_wrapper.html"
          { content := origW componentW [] []
            uid := envW.generate_uid
            edxnotes_visibility_url :=
              envW.reverse_edxnotes_visibility (envW.get_course componentW.course_id).id
            edxnotes_visibility :=
              envW.json_dumps (envW.get_course componentW.course_id).edxnotes_visibility
            params :=
              { usageId := componentW.usage_id
                courseId := componentW.course_id
                token := envW.get_token (envW.get_real_user componentW.anonymous_student_id)
                endpoint := envW.get_endpoint
                debug := envW.debug } }
      else origW componentW [] [] :=
  edxnotes_get_html_missing_author_attr envW origW componentW [] [] rfl

/-- C8: the `edxnotes` decorator only rebinds `get_html` — the returned
class has the wrapper as its `get_html` and all other attributes exactly as
in the input class. -/
theorem edxnotes_rebinds_only_get_html {Args Kwargs : Type}
    (env : Env) (cls : Cls Args Kwargs) :
    edxnotes env cls =
      { get_html := fun self args kwargs =>
          (edxnotes.get_html env cls.get_html self args kwargs).1
        attrs := cls.attrs } :=
  rfl

/-- C9: whichever branch of the conditional is taken, the wrapped `get_html`
invokes the original `get_html` exactly once, with exactly the `self`, the
positional arguments and the keyword arguments the wrapper received. -/
theorem edxnotes_get_html_calls_original_once {Args Kwargs : Type}
    (env : Env) (original_get_html : Component → Args → Kwargs → String)
    (self : Component) (args : Args) (kwargs : Kwargs) :
    (edxnotes.get_html env original_get_html self args kwargs).2 =
      [⟨self, args, kwargs⟩] := by
  simp only [edxnotes.get_html, callOriginal]
  cases hc : (self.system.is_author_mode.getD false
      || !env.is_feature_enabled (env.get_course self.course_id)) <;>
    simp [hc]

/-- C6: persisted modulestore state is flushed both before and after each
test — `_pre_setup` runs `drop_mongo_collections` and only then delegates to
the superclass setup, and `_post_teardown` runs `drop_mongo_collections`,
clears the existing modulestores and the request cache, and only then (after
its temporary-directory cleanup) delegates to the superclass teardown. -/
theorem lifecycle_flushes_before_and_after (ms : ModuleStoreState) :
    _pre_setup ms = drop_mongo_collections ms ++ [LcEv.super_pre_setup] ∧
    ∃ cleanup, _post_teardown ms =
      drop_mongo_collections ms
        ++ (LcEv.clear_existing_modulestores :: LcEv.clear_request_cache :: cleanup)
        ++ [LcEv.super_post_teardown] := by
  refine ⟨rfl,
    (if ms.isXml then [] else ms.modulestores.flatMap teardownLoopBody), ?_⟩
  simp [_post_teardown]

/-- C10: `drop_mongo_collections` clears the content-store cache on every
invocation, even when the active modulestore is an `XMLModuleStore`; the
`isinstance` guard only skips dropping databases and disconnecting
connections, while the cache clearing and the (guarded by `hasattr`)
`close_connections` call still happen. -/
theorem drop_mongo_collections_clears_contentstore (ms : ModuleStoreState) :
    LcEv.clear_contentstore ∈ drop_mongo_collections ms ∧
    (ms.has_close_connections = true →
      LcEv.close_connections ∈ drop_mongo_collections ms) ∧
    (ms.isXml = true → ∀ name : String,
      LcEv.drop_database name ∉ drop_mongo_collections ms ∧
      LcEv.disconnect name ∉ drop_mongo_collections ms) := by
  refine ⟨?_, ?_, ?_⟩
  · simp [drop_mongo_collections]
  · intro h
    simp [drop_mongo_collections, h]
  · intro h name
    constructor <;>
      cases hcc : ms.has_close_connections <;>
        simp [drop_mongo_collections, h, hcc]

/-- Witness for C10 at a concrete `XMLModuleStore` state. -/
theorem drop_mongo_collections_clears_contentstore_witness :
    LcEv.close_connections ∈ drop_mongo_collections msW ∧
    LcEv.drop_database "test_xmodule" ∉ drop_mongo_collections msW :=
  ⟨(drop_mongo_collections_clears_contentstore msW).2.1 rfl,
   ((drop_mongo_collections_clears_contentstore msW).2.2 rfl "test_xmodule").1⟩

mutual

/-- Structural induction for block trees: part for a single tree. -/
theorem blockInfoInductionT (P : BlockInfo → Prop) (Q : List BlockInfo → Prop)
    (hb : ∀ c i f s, Q s → P (BlockInfo.mk c i f s))
    (hn : Q []) (hc : ∀ b bs, P b → Q bs → Q (b :: bs)) :
    ∀ b, P b
  | BlockInfo.mk c i f s => hb c i f s (blockInfoInductionF P Q hb hn hc s)
termination_by b => sizeOf b

/-- Structural induction for block trees: part for a forest. -/
theorem blockInfoInductionF (P : BlockInfo → Prop) (Q : List BlockInfo → Prop)
    (hb : ∀ c i f s, Q s → P (BlockInfo.mk c i f s))
    (hn : Q []) (hc : ∀ b bs, P b → Q bs → Q (b :: bs)) :
    ∀ bs, Q bs
  | [] => hn
  | b :: bs => hc b bs (blockInfoInductionT P Q hb hn hc b)
      (blockInfoInductionF P Q hb hn hc bs)
termination_by bs => sizeOf bs

end

/-- Joint structural induction for block trees and forests. -/
theorem blockInfoInduction (P : BlockInfo → Prop) (Q : List BlockInfo → Prop)
    (hb : ∀ c i f s, Q s → P (BlockInfo.mk c i f s))
    (hn : Q []) (hc : ∀ b bs, P b → Q bs → Q (b :: bs)) :
    (∀ b, P b) ∧ (∀ bs, Q bs) :=
  ⟨blockInfoInductionT P Q hb hn hc, blockInfoInductionF P Q hb hn hc⟩

/-- Unfolding `childCreates` over `create_sub_tree`. -/
theorem childCreates_sub_tree (p c i : String) (f : List (String × String))
    (s : List BlockInfo) :
    childCreates (create_sub_tree p (BlockInfo.mk c i f s)) =
      (p, c, i, f) :: childCreates (createForest i s) := by
  simp [childCreates, create_sub_tree, List.filterMap_append, createData]

/-- Unfolding `childCreates` over an empty forest. -/
theorem childCreates_forest_nil (p : String) :
    childCreates (createForest p []) = [] := by
  simp [childCreates, createForest]

/-- Unfolding `childCreates` over a non-empty forest. -/
theorem childCreates_forest_cons (p : String) (b : BlockInfo)
    (bs : List BlockInfo) :
    childCreates (createForest p (b :: bs)) =
      childCreates (create_sub_tree p b) ++ childCreates (createForest p bs) := by
  simp [childCreates, createForest, List.filterMap_append]

/-- The `create_course` and `publish` calls contribute no `create_child`
data. -/
theorem childCreates_sample_course (org course run : String)
    (tree : List BlockInfo) :
    childCreates (create_sample_course org course run tree) =
      childCreates (createForest (courseLoc org course run) tree) := by
  simp [childCreates, create_sample_course, List.filterMap_append, createData]

/-- Unfolding `createIds` over `create_sub_tree`. -/
theorem createIds_sub_tree (p c i : String) (f : List (String × String))
    (s : List BlockInfo) :
    createIds (create_sub_tree p (BlockInfo.mk c i f s)) =
      i :: createIds (createForest i s) := by
  simp [createIds, childCreates_sub_tree]

/-- Unfolding `createIds` over an empty forest. -/
theorem createIds_forest_nil (p : String) :
    createIds (createForest p []) = [] := by
  simp [createIds, childCreates_forest_nil]

/-- Unfolding `createIds` over a non-empty forest. -/
theorem createIds_forest_cons (p : String) (b : BlockInfo)
    (bs : List BlockInfo) :
    createIds (createForest p (b :: bs)) =
      createIds (create_sub_tree p b) ++ createIds (createForest p bs) := by
  simp [createIds, childCreates_forest_cons]

/-- The block identifiers created by `create_sample_course` are those of its
forest traversal. -/
theorem createIds_sample_course (org course run : String)
    (tree : List BlockInfo) :
    createIds (create_sample_course org course run tree) =
      createIds (createForest (courseLoc org course run) tree) := by
  simp [createIds, childCreates_sample_course]

/-- The `create_child` calls of a sub-tree traversal carry exactly the
preorder records of the tree. -/
theorem childCreates_spec :
    (∀ b : BlockInfo, ∀ p : String,
      childCreates (create_sub_tree p b) = specRecords p b) ∧
    (∀ bs : List BlockInfo, ∀ p : String,
      childCreates (createForest p bs) = specRecordsF p bs) := by
  refine blockInfoInduction _ _ ?_ ?_ ?_
  · intro c i f s ih p
    rw [childCreates_sub_tree, ih i]
    simp [specRecords]
  · intro p
    rw [childCreates_forest_nil]
    simp [specRecordsF]
  · intro b bs ihb ihf p
    rw [childCreates_forest_cons, ihb p, ihf p]
    simp [specRecordsF]

/-- Every record of a tree gets a `create_child` call with its identifier. -/
theorem mem_createIds :
    (∀ b : BlockInfo, ∀ d ∈ flattenT b, ∀ p : String,
      d.block_id ∈ createIds (create_sub_tree p b)) ∧
    (∀ bs : List BlockInfo, ∀ d ∈ flattenF bs, ∀ p : String,
      d.block_id ∈ createIds (createForest p bs)) := by
  refine blockInfoInduction _ _ ?_ ?_ ?_
  · intro c i f s ih d hd p
    rw [createIds_sub_tree]
    simp only [flattenT, List.mem_cons] at hd
    rcases hd with rfl | hd
    · simp [BlockInfo.block_id]
    · exact List.mem_cons_of_mem _ (ih d hd i)
  · intro d hd
    simp [flattenF] at hd
  · intro b bs ihb ihf d hd p
    rw [createIds_forest_cons]
    simp only [flattenF, List.mem_append] at hd
    rcases hd with hd | hd
    · exact List.mem_append_left _ (ihb d hd p)
    · exact List.mem_append_right _ (ihf d hd p)

/-- The identifier trace of any record of a forest embeds, as a sublist,
into the identifier trace of the whole forest traversal. -/
theorem sub_tree_sublist :
    (∀ b' : BlockInfo, ∀ b ∈ flattenT b', ∀ p : String, ∃ q,
      List.Sublist (createIds (create_sub_tree q b))
        (createIds (create_sub_tree p b'))) ∧
    (∀ bs : List BlockInfo, ∀ b ∈ flattenF bs, ∀ p : String, ∃ q,
      List.Sublist (createIds (create_sub_tree q b))
        (createIds (createForest p bs))) := by
  refine blockInfoInduction _ _ ?_ ?_ ?_
  · intro c i f s ih b hb p
    rw [createIds_sub_tree]
    simp only [flattenT, List.mem_cons] at hb
    rcases hb with rfl | hb
    · refine ⟨p, ?_⟩
      rw [createIds_sub_tree]
    · obtain ⟨q, hq⟩ := ih b hb i
      exact ⟨q, hq.trans (List.sublist_cons_self _ _)⟩
  · intro b hb
    simp [flattenF] at hb
  · intro b' bs ihb ihf b hb p
    rw [createIds_forest_cons]
    simp only [flattenF, List.mem_append] at hb
    rcases hb with hb | hb
    · obtain ⟨q, hq⟩ := ihb b hb p
      exact ⟨q, hq.trans (List.sublist_append_left _ _)⟩
    · obtain ⟨q, hq⟩ := ihf b hb p
      exact ⟨q, hq.trans (List.sublist_append_right _ _)⟩

/-- Within one sub-tree traversal, the parent's `create_child` call precedes
the call for every record of its `sub_tree`. -/
theorem parent_before_descendant (p : String) (b d : BlockInfo)
    (hd : d ∈ flattenF b.sub_tree) :
    List.Sublist [b.block_id, d.block_id] (createIds (create_sub_tree p b)) := by
  cases b with
  | mk c i f s =>
    rw [createIds_sub_tree]
    have hmem : d.block_id ∈ createIds (createForest i s) :=
      mem_createIds.2 s d (by simpa [BlockInfo.sub_tree] using hd) i
    exact (List.singleton_sublist.mpr hmem).cons₂ _

/-- C7: `create_sample_course` issues one `create_child` call per record of
the block-info tree, carrying that record's category, identifier and field
values (in preorder, each under its parent's location), every parent's call
precedes the call of each record in its `sub_tree`, and the trace ends by
publishing the course location. -/
theorem create_sample_course_creates_blocks (org course run : String)
    (block_info_tree : List BlockInfo) :
    childCreates (create_sample_course org course run block_info_tree) =
      specRecordsF (courseLoc org course run) block_info_tree ∧
    (∀ b ∈ flattenF block_info_tree, ∀ d ∈ flattenF b.sub_tree,
      List.Sublist [b.block_id, d.block_id]
        (createIds (create_sample_course org course run block_info_tree))) ∧
    ∃ pre, create_sample_course org course run block_info_tree =
      pre ++ [CrEv.publish (courseLoc org course run)] := by
  refine ⟨?_, ?_, ?_⟩
  · rw [childCreates_sample_course]
    exact childCreates_spec.2 block_info_tree _
  · intro b hb d hd
    rw [createIds_sample_course]
    obtain ⟨q, hq⟩ :=
      sub_tree_sublist.2 block_info_tree b hb (courseLoc org course run)
    exact (parent_before_descendant q b d hd).trans hq
  · exact ⟨CrEv.create_course org course run ::
      createForest (courseLoc org course run) block_info_tree, rfl⟩

/-- Witness for C7 at a concrete two-level tree: the chapter's creation
precedes its vertical's creation. -/
theorem create_sample_course_creates_blocks_witness :
    List.Sublist [blockW.block_id, blockWchild.block_id]
      (createIds (create_sample_course "edX" "toy" "2012_Fall" [blockW])) :=
  (create_sample_course_creates_blocks "edX" "toy" "2012_Fall" [blockW]).2.1
    blockW (by simp [flattenF, flattenT, blockW, blockWchild])
    blockWchild
    (by simp [flattenF, flattenT, blockW, blockWchild, BlockInfo.sub_tree])
